import Mathlib

/-!
Shallow embedding of the API-key/token lifecycle manager of the
Markdown2GooleDocNode repository (`services/apiKeyManager.js`,
class `ApiKeyManager`) together with the key-revocation HTTP route
handler (`routes/auth.js`, `DELETE /keys/:keyId`).

Modelling conventions:
* Instants (`Date.now()`, `Date` objects, `tokens.expiry_date`) are
  millisecond epoch values of type `Int`.
* The JS `Map` objects `apiKeys` and `refreshTimers` are insertion-ordered
  association lists; `mapGet`/`mapSet`/`mapDelete` mirror `Map.get`,
  `Map.set` and `Map.delete`.
* The on-disk file `api-keys.json` is a further field `disk` of the state;
  `fs.writeFile` either succeeds (parameter `diskOk = true`, the file now
  holds the serialized map) or rejects (`diskOk = false`).  The source's
  `saveApiKeys` wraps the write in `try/catch` and only logs the error,
  which is why the embedded `saveApiKeys` is total and never fails.
* The external provider call `oauth2Client.refreshAccessToken()` is a
  parameter `provider : Option ProviderCreds`; `some c` is a fulfilled
  call returning credentials `c`, `none` is a rejected call.
* A rejected promise / thrown exception of an `async` method is the
  `Outcome.thrown` result; a value `v` returned normally is `Outcome.ok v`.
* `setTimeout` handles kept in `refreshTimers` are `Timer` values recording
  the absolute instant at which the callback would fire; `clearTimeout`
  disarms the handle (`armed := false`) without removing the map entry,
  exactly as in the source.
-/

/-- Timer handle stored in `refreshTimers`: the absolute fire instant of the
`setTimeout` callback and whether the timer is still armed (`clearTimeout`
disarms it). -/
structure Timer where
  fireTime : Int
  armed : Bool
deriving Repr, DecidableEq

/-- Per-key credential record, the value type of the `apiKeys` map, with the
exact fields built by `createApiKey`. -/
structure KeyData where
  userId : String
  email : String
  name : String
  picture : String
  accessToken : String
  refreshToken : Option String
  tokenExpiry : Option Int
  scope : String
  createdAt : Int
  lastUsed : Int
  active : Bool
deriving Repr, DecidableEq

/-- Identity attributes passed to `createApiKey` (`userInfo`). -/
structure UserInfo where
  id : String
  email : String
  name : String
  picture : String
deriving Repr, DecidableEq

/-- Provider token set passed to `createApiKey` (`tokens`). -/
structure Tokens where
  access_token : String
  refresh_token : Option String
  expiry_date : Option Int
  scope : String
deriving Repr, DecidableEq

/-- Credentials returned by a fulfilled `oauth2Client.refreshAccessToken()`
call (the fields of `credentials` that the manager reads). -/
structure ProviderCreds where
  access_token : String
  expiry_date : Option Int
deriving Repr, DecidableEq

/-- Result of an `async` method: a normally returned value, or a thrown
exception / rejected promise. -/
inductive Outcome (α : Type) where
  | ok : α → Outcome α
  | thrown : Outcome α
deriving Repr, DecidableEq

/-- State of the `ApiKeyManager` singleton plus the on-disk file. -/
structure ManagerState where
  apiKeys : List (String × KeyData)
  refreshTimers : List (String × Timer)
  disk : List (String × KeyData)
deriving Repr, DecidableEq

/-- JS `Map.get`: value of the first (unique) entry with the given key. -/
def mapGet {α : Type} : List (String × α) → String → Option α
  | [], _ => none
  | (k1, v1) :: rest, k => if k1 = k then some v1 else mapGet rest k

/-- JS `Map.set`: replace the entry with the given key in place, or append a
new entry when the key is absent. -/
def mapSet {α : Type} : List (String × α) → String → α → List (String × α)
  | [], k, v => [(k, v)]
  | (k1, v1) :: rest, k, v =>
    if k1 = k then (k, v) :: rest else (k1, v1) :: mapSet rest k v

/-- JS `Map.delete`: remove the entry with the given key. -/
def mapDelete {α : Type} (m : List (String × α)) (k : String) :
    List (String × α) :=
  m.filter (fun p => !(p.1 = k : Bool))

/-- Embeds `saveApiKeys` (part_004 lines 66-73): serialize the in-memory map
to the file.  The source catches any write error and merely logs it, so the
operation always completes normally; on failure the file keeps its old
contents. -/
def saveApiKeys (st : ManagerState) (diskOk : Bool) : ManagerState :=
  if diskOk then { st with disk := st.apiKeys } else st

/-- Embeds `needsTokenRefresh` (part_004 lines 139-144): true when the
record has an expiry lying strictly before now + 5 minutes. -/
def needsTokenRefresh (keyData : KeyData) (now : Int) : Bool :=
  match keyData.tokenExpiry with
  | none => false
  | some t => t < now + 5 * 60 * 1000

/-- Embeds `scheduleTokenRefresh` (part_004 lines 198-224): for a stored
record with an expiry, `clearTimeout` any existing handle for the key, then
arm a fresh timer at `expiry - 5min` only when that instant is strictly in
the future (`refreshTime > 0`); otherwise no timer is armed. -/
def scheduleTokenRefresh (st : ManagerState) (apiKey : String) (now : Int) :
    ManagerState :=
  match mapGet st.apiKeys apiKey with
  | none => st
  | some keyData =>
    match keyData.tokenExpiry with
    | none => st
    | some expiry =>
      let timers :=
        match mapGet st.refreshTimers apiKey with
        | some t => mapSet st.refreshTimers apiKey { t with armed := false }
        | none => st.refreshTimers
      let refreshTime := expiry - now - 5 * 60 * 1000
      if refreshTime > 0 then
        { st with refreshTimers :=
            mapSet timers apiKey { fireTime := now + refreshTime, armed := true } }
      else
        { st with refreshTimers := timers }

/-- Embeds the `catch` block of `refreshUserTokens` (part_004 lines 181-191):
re-fetch the record and, when it exists, set `active := false` and persist,
before rethrowing. -/
def markInactiveOnFailure (st : ManagerState) (apiKey : String)
    (diskOk : Bool) : ManagerState :=
  match mapGet st.apiKeys apiKey with
  | none => st
  | some keyData =>
    saveApiKeys
      { st with apiKeys := mapSet st.apiKeys apiKey { keyData with active := false } }
      diskOk

/-- Embeds `refreshUserTokens` (part_004 lines 149-193): throw when the
record is missing or has no refresh token; otherwise call the provider.  On
a fulfilled call, write the new `accessToken` and `tokenExpiry`, persist,
reschedule and return the record; on any throw, run the catch block
(`markInactiveOnFailure`) and rethrow. -/
def refreshUserTokens (st : ManagerState) (apiKey : String) (now : Int)
    (diskOk : Bool) (provider : Option ProviderCreds) :
    ManagerState × Outcome KeyData :=
  match mapGet st.apiKeys apiKey with
  | none => (markInactiveOnFailure st apiKey diskOk, .thrown)
  | some keyData =>
    match keyData.refreshToken with
    | none => (markInactiveOnFailure st apiKey diskOk, .thrown)
    | some _ =>
      match provider with
      | none => (markInactiveOnFailure st apiKey diskOk, .thrown)
      | some credentials =>
        let keyData1 := { keyData with
          accessToken := credentials.access_token,
          tokenExpiry := credentials.expiry_date }
        let st1 := { st with apiKeys := mapSet st.apiKeys apiKey keyData1 }
        let st2 := saveApiKeys st1 diskOk
        let st3 := scheduleTokenRefresh st2 apiKey now
        (st3, .ok keyData1)

/-- Embeds `getUserByApiKey` (part_004 lines 116-134): null when the key is
absent or inactive; otherwise touch `lastUsed`, persist, and — when the
token is within the 5-minute window — `await` `refreshUserTokens` (whose
exception propagates uncaught) and return the re-fetched record. -/
def getUserByApiKey (st : ManagerState) (apiKey : String) (now : Int)
    (diskOk : Bool) (provider : Option ProviderCreds) :
    ManagerState × Outcome (Option KeyData) :=
  match mapGet st.apiKeys apiKey with
  | none => (st, .ok none)
  | some keyData =>
    if keyData.active = false then (st, .ok none)
    else
      let keyData1 := { keyData with lastUsed := now }
      let st1 := { st with apiKeys := mapSet st.apiKeys apiKey keyData1 }
      let st2 := saveApiKeys st1 diskOk
      if needsTokenRefresh keyData1 now then
        match refreshUserTokens st2 apiKey now diskOk provider with
        | (st3, .thrown) => (st3, .thrown)
        | (st3, .ok _) => (st3, .ok (mapGet st3.apiKeys apiKey))
      else
        (st2, .ok (some keyData1))

/-- Embeds `createApiKey` (part_004 lines 78-111): build the record, insert
it under `"md2doc_" ++ keyId` (the hex of `crypto.randomBytes(4)`, taken
here as the parameter `keyId`), persist, schedule, and return the key.
Nothing inside the `try` can throw (`saveApiKeys` swallows write errors),
so the result is always `ok`. -/
def createApiKey (st : ManagerState) (keyId : String) (userInfo : UserInfo)
    (tokens : Tokens) (now : Int) (diskOk : Bool) :
    ManagerState × Outcome String :=
  let apiKey := "md2doc_" ++ keyId
  let keyData : KeyData := {
    userId := userInfo.id
    email := userInfo.email
    name := userInfo.name
    picture := userInfo.picture
    accessToken := tokens.access_token
    refreshToken := tokens.refresh_token
    tokenExpiry := tokens.expiry_date
    scope := tokens.scope
    createdAt := now
    lastUsed := now
    active := true }
  let st1 := { st with apiKeys := mapSet st.apiKeys apiKey keyData }
  let st2 := saveApiKeys st1 diskOk
  let st3 := scheduleTokenRefresh st2 apiKey now
  (st3, .ok apiKey)

/-- Embeds `revokeApiKey` (part_004 lines 261-277): when the record exists,
set `active := false`, persist, `clearTimeout` and delete any timer entry,
and return `true`; otherwise return `false`. -/
def revokeApiKey (st : ManagerState) (apiKey : String) (diskOk : Bool) :
    ManagerState × Bool :=
  match mapGet st.apiKeys apiKey with
  | none => (st, false)
  | some keyData =>
    let st1 := { st with apiKeys := mapSet st.apiKeys apiKey { keyData with active := false } }
    let st2 := saveApiKeys st1 diskOk
    let st3 :=
      if (mapGet st2.refreshTimers apiKey).isSome then
        { st2 with refreshTimers := mapDelete st2.refreshTimers apiKey }
      else st2
    (st3, true)

/-- Embeds `cleanup` (part_004 lines 300-323): delete every record with
`active = false` and `lastUsed` older than 30 days, delete those keys'
timer entries, persist once when anything was removed.  The source function
ends without a `return` statement, so its promise resolves to `undefined`:
the returned value is modelled as `Option Nat` and is always `none` (a
function returning the count `n` would yield `some n`). -/
def cleanup (st : ManagerState) (now : Int) (diskOk : Bool) :
    ManagerState × Option Nat :=
  let thirtyDaysAgo := now - 30 * 24 * 60 * 60 * 1000
  let isRemovable := fun (kd : KeyData) =>
    !kd.active && decide (kd.lastUsed < thirtyDaysAgo)
  let removedKeys :=
    (st.apiKeys.filter (fun p => isRemovable p.2)).map Prod.fst
  let st1 : ManagerState := { st with
    apiKeys := st.apiKeys.filter (fun p => !isRemovable p.2)
    refreshTimers := st.refreshTimers.filter (fun p => !removedKeys.contains p.1) }
  let cleanupCount := removedKeys.length
  let st2 := if cleanupCount > 0 then saveApiKeys st1 diskOk else st1
  (st2, none)

/-- Response classes produced by the `DELETE /keys/:keyId` route handler. -/
inductive RevokeRouteResult where
  | unauthorized
  | forbidden
  | success
  | notFoundKey
  | serverError
deriving Repr, DecidableEq

/-- Embeds the `DELETE /keys/:keyId` handler (part_000 lines 331-369):
resolve the requester's key from the `X-API-Key` header, resolve the key to
revoke, reject with 403 unless it resolves and is owned by the same
`userId`, then call `revokeApiKey`.  Any exception is caught by the
handler's `try/catch` and becomes a 500 (`serverError`).  The two resolve
calls may each trigger a reactive refresh, hence the two independent
provider outcomes `provider1`, `provider2`. -/
def revokeRoute (st : ManagerState) (headerKey : Option String)
    (keyToRevoke : String) (now : Int) (diskOk : Bool)
    (provider1 provider2 : Option ProviderCreds) :
    ManagerState × RevokeRouteResult :=
  match headerKey with
  | none => (st, .unauthorized)
  | some apiKey =>
    match getUserByApiKey st apiKey now diskOk provider1 with
    | (st1, .thrown) => (st1, .serverError)
    | (st1, .ok none) => (st1, .unauthorized)
    | (st1, .ok (some userData)) =>
      match getUserByApiKey st1 keyToRevoke now diskOk provider2 with
      | (st2, .thrown) => (st2, .serverError)
      | (st2, .ok keyDataOpt) =>
        match keyDataOpt with
        | none => (st2, .forbidden)
        | some keyData =>
          if keyData.userId ≠ userData.userId then (st2, .forbidden)
          else
            match revokeApiKey st2 keyToRevoke diskOk with
            | (st3, true) => (st3, .success)
            | (st3, false) => (st3, .notFoundKey)

/-! Basic lemmas about the map operations and the state-preserving parts of
the manager's operations. -/

theorem mapGet_mapSet_self {α : Type} (m : List (String × α)) (k : String)
    (v : α) : mapGet (mapSet m k v) k = some v := by
  induction m with
  | nil => simp [mapGet, mapSet]
  | cons p rest ih =>
    obtain ⟨k1, v1⟩ := p
    by_cases h : k1 = k <;> simp [mapGet, mapSet, h, ih]

theorem mapGet_mapSet_ne {α : Type} (m : List (String × α)) (k k2 : String)
    (v : α) (hk : k ≠ k2) : mapGet (mapSet m k v) k2 = mapGet m k2 := by
  induction m with
  | nil => simp [mapGet, mapSet, hk]
  | cons p rest ih =>
    obtain ⟨k1, v1⟩ := p
    by_cases h : k1 = k
    · subst h
      simp [mapGet, mapSet, hk]
    · simp only [mapSet, if_neg h]
      by_cases h2 : k1 = k2 <;> simp [mapGet, h2, ih]

theorem saveApiKeys_apiKeys (st : ManagerState) (d : Bool) :
    (saveApiKeys st d).apiKeys = st.apiKeys := by
  unfold saveApiKeys; split <;> rfl

theorem saveApiKeys_refreshTimers (st : ManagerState) (d : Bool) :
    (saveApiKeys st d).refreshTimers = st.refreshTimers := by
  unfold saveApiKeys; split <;> rfl

theorem saveApiKeys_disk_true (st : ManagerState) :
    (saveApiKeys st true).disk = st.apiKeys := rfl

theorem scheduleTokenRefresh_apiKeys (st : ManagerState) (k : String)
    (now : Int) : (scheduleTokenRefresh st k now).apiKeys = st.apiKeys := by
  unfold scheduleTokenRefresh
  repeat' split
  all_goals dsimp only
  all_goals split <;> rfl

theorem scheduleTokenRefresh_disk (st : ManagerState) (k : String)
    (now : Int) : (scheduleTokenRefresh st k now).disk = st.disk := by
  unfold scheduleTokenRefresh
  repeat' split
  all_goals dsimp only
  all_goals split <;> rfl

theorem needsTokenRefresh_set_lastUsed (kd : KeyData) (t now : Int) :
    needsTokenRefresh { kd with lastUsed := t } now = needsTokenRefresh kd now :=
  rfl

theorem markInactiveOnFailure_found (st : ManagerState) (k : String) (d : Bool)
    (kd : KeyData) (h : mapGet st.apiKeys k = some kd) :
    markInactiveOnFailure st k d =
      saveApiKeys
        { st with apiKeys := mapSet st.apiKeys k { kd with active := false } } d := by
  unfold markInactiveOnFailure
  rw [h]

theorem needsTokenRefresh_eq (kd : KeyData) (now : Int) :
    needsTokenRefresh kd now =
      kd.tokenExpiry.elim false (fun t => decide (t < now + 300000)) := by
  cases h : kd.tokenExpiry <;> simp [needsTokenRefresh, h]

theorem refreshUserTokens_fail (st : ManagerState) (k : String) (now : Int)
    (d : Bool) :
    refreshUserTokens st k now d none =
      (markInactiveOnFailure st k d, Outcome.thrown) := by
  unfold refreshUserTokens
  repeat' split
  any_goals rfl
  all_goals simp_all

theorem refreshUserTokens_ok (st : ManagerState) (k : String) (now : Int)
    (d : Bool) (kd : KeyData) (rt : String) (c : ProviderCreds)
    (h : mapGet st.apiKeys k = some kd) (hrt : kd.refreshToken = some rt) :
    refreshUserTokens st k now d (some c) =
      (scheduleTokenRefresh
         (saveApiKeys
           { st with
             apiKeys := mapSet st.apiKeys k ({ kd with
               accessToken := c.access_token,
               tokenExpiry := c.expiry_date }) } d) k now,
       Outcome.ok ({ kd with
         accessToken := c.access_token,
         tokenExpiry := c.expiry_date })) := by
  unfold refreshUserTokens
  rw [h]
  simp only [hrt]

theorem getUserByApiKey_absent (st : ManagerState) (k : String) (now : Int)
    (d : Bool) (p : Option ProviderCreds) (h : mapGet st.apiKeys k = none) :
    getUserByApiKey st k now d p = (st, Outcome.ok none) := by
  unfold getUserByApiKey
  rw [h]

theorem getUserByApiKey_inactive (st : ManagerState) (k : String) (now : Int)
    (d : Bool) (p : Option ProviderCreds) (kd : KeyData)
    (h : mapGet st.apiKeys k = some kd) (ha : kd.active = false) :
    getUserByApiKey st k now d p = (st, Outcome.ok none) := by
  unfold getUserByApiKey
  rw [h]
  simp [ha]

theorem getUserByApiKey_fresh (st : ManagerState) (k : String) (now : Int)
    (d : Bool) (p : Option ProviderCreds) (kd : KeyData)
    (h : mapGet st.apiKeys k = some kd) (ha : kd.active = true)
    (hr : needsTokenRefresh kd now = false) :
    getUserByApiKey st k now d p =
      (saveApiKeys
         { st with
           apiKeys := mapSet st.apiKeys k ({ kd with lastUsed := now }) } d,
       Outcome.ok (some ({ kd with lastUsed := now }))) := by
  rw [needsTokenRefresh_eq] at hr
  unfold getUserByApiKey
  rw [h]
  simp [ha, needsTokenRefresh_eq, hr]

theorem getUserByApiKey_stale_fail (st : ManagerState) (k : String) (now : Int)
    (d : Bool) (kd : KeyData) (h : mapGet st.apiKeys k = some kd)
    (ha : kd.active = true) (hr : needsTokenRefresh kd now = true) :
    getUserByApiKey st k now d none =
      (markInactiveOnFailure
         (saveApiKeys
           { st with
             apiKeys := mapSet st.apiKeys k ({ kd with lastUsed := now }) } d)
         k d,
       Outcome.thrown) := by
  rw [needsTokenRefresh_eq] at hr
  unfold getUserByApiKey
  rw [h]
  simp [ha, needsTokenRefresh_eq, hr, refreshUserTokens_fail]

theorem refreshUserTokens_after_touch (st : ManagerState) (k : String)
    (now : Int) (d : Bool) (kd1 : KeyData) (rt : String) (c : ProviderCreds)
    (hrt : kd1.refreshToken = some rt) :
    refreshUserTokens
        (saveApiKeys { st with apiKeys := mapSet st.apiKeys k kd1 } d)
        k now d (some c) =
      (scheduleTokenRefresh
         (saveApiKeys
           { (saveApiKeys { st with apiKeys := mapSet st.apiKeys k kd1 } d) with apiKeys := mapSet (mapSet st.apiKeys k kd1) k ({ kd1 with accessToken := c.access_token, tokenExpiry := c.expiry_date }) } d)
         k now,
       Outcome.ok ({ kd1 with accessToken := c.access_token, tokenExpiry := c.expiry_date })) := by
  have h2 : mapGet
      (saveApiKeys { st with apiKeys := mapSet st.apiKeys k kd1 } d).apiKeys k =
      some kd1 := by
    rw [saveApiKeys_apiKeys]
    exact mapGet_mapSet_self _ _ _
  rw [refreshUserTokens_ok _ _ _ _ _ rt c h2 hrt, saveApiKeys_apiKeys]

theorem getUserByApiKey_stale_ok_snd (st : ManagerState) (k : String)
    (now : Int) (d : Bool) (kd : KeyData) (rt : String) (c : ProviderCreds)
    (h : mapGet st.apiKeys k = some kd) (ha : kd.active = true)
    (hr : needsTokenRefresh kd now = true) (hrt : kd.refreshToken = some rt) :
    (getUserByApiKey st k now d (some c)).2 =
      Outcome.ok (some ({ kd with lastUsed := now, accessToken := c.access_token, tokenExpiry := c.expiry_date })) := by
  rw [needsTokenRefresh_eq] at hr
  unfold getUserByApiKey
  rw [h]
  simp only [ha, Bool.true_eq_false, if_false, needsTokenRefresh_eq, hr, if_true]
  rw [refreshUserTokens_after_touch st k now d ({ kd with lastUsed := now, active := true }) rt c hrt]
  dsimp only
  rw [scheduleTokenRefresh_apiKeys, saveApiKeys_apiKeys]
  dsimp only
  rw [mapGet_mapSet_self]

theorem getUserByApiKey_stale_ok_fst (st : ManagerState) (k : String)
    (now : Int) (d : Bool) (kd : KeyData) (rt : String) (c : ProviderCreds)
    (h : mapGet st.apiKeys k = some kd) (ha : kd.active = true)
    (hr : needsTokenRefresh kd now = true) (hrt : kd.refreshToken = some rt) :
    mapGet (getUserByApiKey st k now d (some c)).1.apiKeys k =
      some ({ kd with lastUsed := now, accessToken := c.access_token, tokenExpiry := c.expiry_date }) := by
  rw [needsTokenRefresh_eq] at hr
  unfold getUserByApiKey
  rw [h]
  simp only [ha, Bool.true_eq_false, if_false, needsTokenRefresh_eq, hr, if_true]
  rw [refreshUserTokens_after_touch st k now d ({ kd with lastUsed := now, active := true }) rt c hrt]
  dsimp only
  rw [scheduleTokenRefresh_apiKeys, saveApiKeys_apiKeys]
  dsimp only
  rw [mapGet_mapSet_self]

/-! Concrete fixtures used by counterexamples and witnesses. -/

/-- Sample credential record builder for concrete test states. -/
def mkKD (uid : String) (rt : Option String) (te : Option Int) (lu : Int)
    (ac : Bool) : KeyData :=
  { userId := uid, email := uid ++ "@example.com", name := uid, picture := "p",
    accessToken := "at", refreshToken := rt, tokenExpiry := te, scope := "s",
    createdAt := 0, lastUsed := lu, active := ac }

/-- State with one active record whose token is inside the 5-minute window. -/
def stC1 : ManagerState :=
  { apiKeys := [("md2doc_k1", mkKD "u1" (some "r1") (some 100000) 0 true)],
    refreshTimers := [], disk := [] }

/-- Claim C1, counterexample: in `stC1` the record for `md2doc_k1` exists, is
active and is inside the 5-minute lookahead window, and the provider refresh
rejects, yet `getUserByApiKey` does not return the not-found result `null`:
it propagates the exception (`Outcome.thrown`) to its caller. -/
theorem C1_counterexample :
    mapGet stC1.apiKeys "md2doc_k1" = some (mkKD "u1" (some "r1") (some 100000) 0 true) ∧
    (mkKD "u1" (some "r1") (some 100000) 0 true).active = true ∧
    needsTokenRefresh (mkKD "u1" (some "r1") (some 100000) 0 true) 0 = true ∧
    (getUserByApiKey stC1 "md2doc_k1" 0 true none).2 = Outcome.thrown ∧
    (getUserByApiKey stC1 "md2doc_k1" 0 true none).2 ≠ Outcome.ok none := by
  decide

/-- Claim C1, amended: when the stored record exists, is active and is within
the 5-minute lookahead window and the provider token refresh inside
`getUserByApiKey` fails, `getUserByApiKey` does not convert the failure to
the not-found result: the exception propagates to its caller (the record is
marked inactive as a side effect). -/
theorem C1_refresh_failure_propagates (st : ManagerState) (k : String)
    (kd : KeyData) (now : Int) (d : Bool)
    (h1 : mapGet st.apiKeys k = some kd) (h2 : kd.active = true)
    (h3 : needsTokenRefresh kd now = true) :
    (getUserByApiKey st k now d none).2 = Outcome.thrown := by
  rw [getUserByApiKey_stale_fail st k now d kd h1 h2 h3]

/-- Claim C1, witness: the amended theorem applied to the concrete state. -/
theorem C1_witness :
    mapGet stC1.apiKeys "md2doc_k1" = some (mkKD "u1" (some "r1") (some 100000) 0 true) ∧
    (mkKD "u1" (some "r1") (some 100000) 0 true).active = true ∧
    needsTokenRefresh (mkKD "u1" (some "r1") (some 100000) 0 true) 0 = true ∧
    (getUserByApiKey stC1 "md2doc_k1" 0 false none).2 = Outcome.thrown :=
  ⟨by decide, by decide, by decide,
    C1_refresh_failure_propagates stC1 "md2doc_k1"
      (mkKD "u1" (some "r1") (some 100000) 0 true) 0 false
      (by decide) (by decide) (by decide)⟩

/-- Claim C3: if the record for a key has a refresh token and the provider
rejects the refresh call, then after `refreshUserTokens` the stored record's
`active` is false and the next `getUserByApiKey` for that key returns the
absent result (null), with the state unchanged by that lookup. -/
theorem C3_fail_closed (st : ManagerState) (k : String) (kd : KeyData)
    (now now2 : Int) (d d2 : Bool) (p2 : Option ProviderCreds)
    (h1 : mapGet st.apiKeys k = some kd) (_h2 : kd.refreshToken.isSome = true) :
    (refreshUserTokens st k now d none).2 = Outcome.thrown ∧
    mapGet (refreshUserTokens st k now d none).1.apiKeys k =
      some ({ kd with active := false }) ∧
    getUserByApiKey (refreshUserTokens st k now d none).1 k now2 d2 p2 =
      ((refreshUserTokens st k now d none).1, Outcome.ok none) := by
  rw [refreshUserTokens_fail, markInactiveOnFailure_found st k d kd h1]
  have hstate : mapGet
      (saveApiKeys { st with apiKeys := mapSet st.apiKeys k ({ kd with active := false }) } d).apiKeys k =
      some ({ kd with active := false }) := by
    rw [saveApiKeys_apiKeys]
    exact mapGet_mapSet_self _ _ _
  exact ⟨rfl, hstate,
    getUserByApiKey_inactive _ k now2 d2 p2 ({ kd with active := false }) hstate rfl⟩

/-- Claim C3, witness: the theorem applied to the concrete state `stC1`. -/
theorem C3_witness :
    mapGet stC1.apiKeys "md2doc_k1" = some (mkKD "u1" (some "r1") (some 100000) 0 true) ∧
    (mkKD "u1" (some "r1") (some 100000) 0 true).refreshToken.isSome = true ∧
    (refreshUserTokens stC1 "md2doc_k1" 0 true none).2 = Outcome.thrown ∧
    mapGet (refreshUserTokens stC1 "md2doc_k1" 0 true none).1.apiKeys "md2doc_k1" =
      some ({ mkKD "u1" (some "r1") (some 100000) 0 true with active := false }) ∧
    getUserByApiKey (refreshUserTokens stC1 "md2doc_k1" 0 true none).1 "md2doc_k1" 7 true none =
      ((refreshUserTokens stC1 "md2doc_k1" 0 true none).1, Outcome.ok none) := by
  have h := C3_fail_closed stC1 "md2doc_k1" (mkKD "u1" (some "r1") (some 100000) 0 true)
    0 7 true true none (by decide) (by decide)
  exact ⟨by decide, by decide, h.1, h.2.1, h.2.2⟩

/-- State with one revoked record, used for C8. -/
def stC8 : ManagerState :=
  { apiKeys := [("md2doc_revoked", mkKD "u8" (some "r8") none 0 false)],
    refreshTimers := [], disk := [] }

/-- Claim C8: `getUserByApiKey` on a key that was never issued and on a
revoked (`active = false`) key both return exactly the same result
`(st, ok none)` with the state untouched, so the two cases are
indistinguishable to the caller. -/
theorem C8_absent_eq_revoked (st : ManagerState) (k : String) (now : Int)
    (d : Bool) (p : Option ProviderCreds)
    (h : mapGet st.apiKeys k = none ∨
      ∃ kd, mapGet st.apiKeys k = some kd ∧ kd.active = false) :
    getUserByApiKey st k now d p = (st, Outcome.ok none) := by
  rcases h with h | ⟨kd, h, ha⟩
  · exact getUserByApiKey_absent st k now d p h
  · exact getUserByApiKey_inactive st k now d p kd h ha

/-- Claim C8, witness: a never-issued key and a revoked key in `stC8`
resolve to the identical result. -/
theorem C8_witness :
    getUserByApiKey stC8 "md2doc_neverissued" 0 true none = (stC8, Outcome.ok none) ∧
    getUserByApiKey stC8 "md2doc_revoked" 0 true none = (stC8, Outcome.ok none) :=
  ⟨C8_absent_eq_revoked stC8 "md2doc_neverissued" 0 true none (Or.inl (by decide)),
   C8_absent_eq_revoked stC8 "md2doc_revoked" 0 true none
     (Or.inr ⟨mkKD "u8" (some "r8") none 0 false, by decide, by decide⟩)⟩

/-- Claim C9: a successful `refreshUserTokens` writes `accessToken` and
`tokenExpiry` together and changes no other field of the record: both the
returned record and the stored record equal the old record with exactly
those two fields replaced. -/
theorem C9_refresh_frame (st : ManagerState) (k : String) (now : Int)
    (d : Bool) (kd : KeyData) (rt : String) (c : ProviderCreds)
    (h1 : mapGet st.apiKeys k = some kd) (h2 : kd.refreshToken = some rt) :
    (refreshUserTokens st k now d (some c)).2 =
      Outcome.ok ({ kd with accessToken := c.access_token, tokenExpiry := c.expiry_date }) ∧
    mapGet (refreshUserTokens st k now d (some c)).1.apiKeys k =
      some ({ kd with accessToken := c.access_token, tokenExpiry := c.expiry_date }) := by
  rw [refreshUserTokens_ok st k now d kd rt c h1 h2]
  refine ⟨rfl, ?_⟩
  rw [scheduleTokenRefresh_apiKeys, saveApiKeys_apiKeys]
  dsimp only
  exact mapGet_mapSet_self _ _ _

/-- Claim C9, witness: the frame theorem applied to the concrete state. -/
theorem C9_witness :
    mapGet stC1.apiKeys "md2doc_k1" = some (mkKD "u1" (some "r1") (some 100000) 0 true) ∧
    (mkKD "u1" (some "r1") (some 100000) 0 true).refreshToken = some "r1" ∧
    (refreshUserTokens stC1 "md2doc_k1" 0 true (some ⟨"newAT", some 999999⟩)).2 =
      Outcome.ok ({ mkKD "u1" (some "r1") (some 100000) 0 true with
        accessToken := "newAT", tokenExpiry := some 999999 }) := by
  have h := C9_refresh_frame stC1 "md2doc_k1" 0 true
    (mkKD "u1" (some "r1") (some 100000) 0 true) "r1" ⟨"newAT", some 999999⟩
    (by decide) (by decide)
  exact ⟨by decide, by decide, h.1⟩

/-- Claim C10: `getUserByApiKey` on an active record inside the lookahead
window updates `lastUsed` and persists the store before attempting the
reactive refresh, so when that refresh fails the call throws yet leaves
`lastUsed` advanced both in memory and in the persisted file (the record is
also deactivated by the failure handler). -/
theorem C10_lastUsed_persisted_despite_failure (st : ManagerState)
    (k : String) (kd : KeyData) (now : Int)
    (h1 : mapGet st.apiKeys k = some kd) (h2 : kd.active = true)
    (h3 : needsTokenRefresh kd now = true) :
    (getUserByApiKey st k now true none).2 = Outcome.thrown ∧
    mapGet (getUserByApiKey st k now true none).1.apiKeys k =
      some ({ kd with lastUsed := now, active := false }) ∧
    mapGet (getUserByApiKey st k now true none).1.disk k =
      some ({ kd with lastUsed := now, active := false }) := by
  rw [getUserByApiKey_stale_fail st k now true kd h1 h2 h3]
  have hmid : mapGet
      (saveApiKeys { st with apiKeys := mapSet st.apiKeys k ({ kd with lastUsed := now }) } true).apiKeys k =
      some ({ kd with lastUsed := now }) := by
    rw [saveApiKeys_apiKeys]
    exact mapGet_mapSet_self _ _ _
  rw [markInactiveOnFailure_found _ k true ({ kd with lastUsed := now }) hmid]
  refine ⟨rfl, ?_, ?_⟩
  · rw [saveApiKeys_apiKeys]
    dsimp only
    exact mapGet_mapSet_self _ _ _
  · rw [saveApiKeys_disk_true]
    dsimp only
    exact mapGet_mapSet_self _ _ _

/-- Claim C10, witness: the theorem applied to the concrete state `stC1`. -/
theorem C10_witness :
    mapGet stC1.apiKeys "md2doc_k1" = some (mkKD "u1" (some "r1") (some 100000) 0 true) ∧
    (mkKD "u1" (some "r1") (some 100000) 0 true).active = true ∧
    needsTokenRefresh (mkKD "u1" (some "r1") (some 100000) 0 true) 50 = true ∧
    (getUserByApiKey stC1 "md2doc_k1" 50 true none).2 = Outcome.thrown ∧
    mapGet (getUserByApiKey stC1 "md2doc_k1" 50 true none).1.disk "md2doc_k1" =
      some ({ mkKD "u1" (some "r1") (some 100000) 0 true with lastUsed := 50, active := false }) := by
  have h := C10_lastUsed_persisted_despite_failure stC1 "md2doc_k1"
    (mkKD "u1" (some "r1") (some 100000) 0 true) 50 (by decide) (by decide) (by decide)
  exact ⟨by decide, by decide, by decide, h.1, h.2.2⟩

theorem saveApiKeys_false (st : ManagerState) : saveApiKeys st false = st := rfl

/-- Empty starting state. -/
def stEmpty : ManagerState := { apiKeys := [], refreshTimers := [], disk := [] }

/-- Sample identity passed to `createApiKey`. -/
def uiSample : UserInfo :=
  { id := "u2", email := "u2@example.com", name := "U2", picture := "p2" }

/-- Sample provider token set passed to `createApiKey`. -/
def tkSample : Tokens :=
  { access_token := "at2", refresh_token := some "rt2", expiry_date := none,
    scope := "s2" }

/-- Claim C2, counterexample: a storage write failure during `createApiKey`
(`diskOk = false`) is not propagated — the call still returns the new key —
and afterwards the in-memory map holds the new record while the on-disk file
is still empty, so the two have diverged. -/
theorem C2_counterexample :
    (createApiKey stEmpty "ab12cd34" uiSample tkSample 0 false).2 =
      Outcome.ok "md2doc_ab12cd34" ∧
    (mapGet (createApiKey stEmpty "ab12cd34" uiSample tkSample 0 false).1.apiKeys
      "md2doc_ab12cd34").isSome = true ∧
    (createApiKey stEmpty "ab12cd34" uiSample tkSample 0 false).1.disk = [] := by
  decide

/-- Claim C2, amended: a storage write failure during issue
(`createApiKey`), revoke (`revokeApiKey`) or refresh (`refreshUserTokens`)
is caught and only logged inside `saveApiKeys`, so each of the three
operations completes normally (no error reaches its caller: issue returns
the key, revoke returns `true`, a provider-successful refresh returns the
updated record), the in-memory map is updated, and the on-disk file keeps
its previous contents — in-memory and on-disk state diverge instead of
being updated together or not at all. -/
theorem C2_storage_failure_not_propagated (st : ManagerState) (keyId : String)
    (ui : UserInfo) (tk : Tokens) (now : Int) (k2 k3 : String)
    (kd2 kd3 : KeyData) (rt : String) (c : ProviderCreds)
    (h2 : mapGet st.apiKeys k2 = some kd2)
    (h3 : mapGet st.apiKeys k3 = some kd3)
    (h3rt : kd3.refreshToken = some rt) :
    ((createApiKey st keyId ui tk now false).2 = Outcome.ok ("md2doc_" ++ keyId) ∧
     mapGet (createApiKey st keyId ui tk now false).1.apiKeys ("md2doc_" ++ keyId) =
       some ({ userId := ui.id, email := ui.email, name := ui.name, picture := ui.picture, accessToken := tk.access_token, refreshToken := tk.refresh_token, tokenExpiry := tk.expiry_date, scope := tk.scope, createdAt := now, lastUsed := now, active := true }) ∧
     (createApiKey st keyId ui tk now false).1.disk = st.disk) ∧
    ((revokeApiKey st k2 false).2 = true ∧
     mapGet (revokeApiKey st k2 false).1.apiKeys k2 = some ({ kd2 with active := false }) ∧
     (revokeApiKey st k2 false).1.disk = st.disk) ∧
    ((refreshUserTokens st k3 now false (some c)).2 =
       Outcome.ok ({ kd3 with accessToken := c.access_token, tokenExpiry := c.expiry_date }) ∧
     mapGet (refreshUserTokens st k3 now false (some c)).1.apiKeys k3 =
       some ({ kd3 with accessToken := c.access_token, tokenExpiry := c.expiry_date }) ∧
     (refreshUserTokens st k3 now false (some c)).1.disk = st.disk) := by
  refine ⟨?_, ?_, ?_⟩
  · unfold createApiKey
    dsimp only
    refine ⟨rfl, ?_, ?_⟩
    · rw [scheduleTokenRefresh_apiKeys, saveApiKeys_apiKeys]
      dsimp only
      exact mapGet_mapSet_self _ _ _
    · rw [scheduleTokenRefresh_disk, saveApiKeys_false]
  · unfold revokeApiKey
    rw [h2]
    dsimp only
    rw [saveApiKeys_false]
    split
    · refine ⟨rfl, ?_, rfl⟩
      dsimp only
      exact mapGet_mapSet_self _ _ _
    · refine ⟨rfl, ?_, rfl⟩
      dsimp only
      exact mapGet_mapSet_self _ _ _
  · rw [refreshUserTokens_ok st k3 now false kd3 rt c h3 h3rt]
    refine ⟨rfl, ?_, ?_⟩
    · rw [scheduleTokenRefresh_apiKeys, saveApiKeys_apiKeys]
      dsimp only
      exact mapGet_mapSet_self _ _ _
    · rw [scheduleTokenRefresh_disk, saveApiKeys_false]

/-- Claim C2, witness: the amended theorem applied to the concrete state
`stC1` — a failed write during issue, revoke and refresh surfaces no error
and leaves the on-disk file unchanged while memory moves on. -/
theorem C2_witness :
    mapGet stC1.apiKeys "md2doc_k1" = some (mkKD "u1" (some "r1") (some 100000) 0 true) ∧
    (mkKD "u1" (some "r1") (some 100000) 0 true).refreshToken = some "r1" ∧
    (createApiKey stC1 "ffee0011" uiSample tkSample 9 false).2 = Outcome.ok "md2doc_ffee0011" ∧
    (createApiKey stC1 "ffee0011" uiSample tkSample 9 false).1.disk = stC1.disk ∧
    (revokeApiKey stC1 "md2doc_k1" false).2 = true ∧
    (revokeApiKey stC1 "md2doc_k1" false).1.disk = stC1.disk ∧
    (refreshUserTokens stC1 "md2doc_k1" 9 false (some ⟨"nA", some 7⟩)).2 =
      Outcome.ok ({ mkKD "u1" (some "r1") (some 100000) 0 true with accessToken := "nA", tokenExpiry := some 7 }) ∧
    (refreshUserTokens stC1 "md2doc_k1" 9 false (some ⟨"nA", some 7⟩)).1.disk = stC1.disk := by
  have h := C2_storage_failure_not_propagated stC1 "ffee0011" uiSample tkSample 9
    "md2doc_k1" "md2doc_k1"
    (mkKD "u1" (some "r1") (some 100000) 0 true)
    (mkKD "u1" (some "r1") (some 100000) 0 true) "r1" ⟨"nA", some 7⟩
    (by decide) (by decide) (by decide)
  exact ⟨by decide, by decide, h.1.1, h.1.2.2, h.2.1.1, h.2.1.2.2, h.2.2.1, h.2.2.2.2⟩

/-- Pre-existing record that a colliding `createApiKey` will overwrite. -/
def kdOldC5 : KeyData := mkKD "olduser" (some "oldrt") none 0 true

/-- State that already contains the key `md2doc_deadbeef`. -/
def stC5 : ManagerState :=
  { apiKeys := [("md2doc_deadbeef", kdOldC5)], refreshTimers := [], disk := [] }

/-- Claim C5, counterexample: when the random 4-byte id collides with an
existing key, `createApiKey` returns a key that is not distinct from the
keys already present and silently replaces the existing record — there is no
uniqueness check. -/
theorem C5_counterexample :
    mapGet stC5.apiKeys "md2doc_deadbeef" = some kdOldC5 ∧
    (createApiKey stC5 "deadbeef" uiSample tkSample 5 true).2 =
      Outcome.ok "md2doc_deadbeef" ∧
    mapGet (createApiKey stC5 "deadbeef" uiSample tkSample 5 true).1.apiKeys
      "md2doc_deadbeef" ≠ some kdOldC5 := by
  decide

/-- Claim C5, amended: `createApiKey` returns `"md2doc_" ++ keyId` for the
generated id and stores the freshly built record under that key
unconditionally, overwriting whatever record was previously stored there;
uniqueness of keys is only probabilistic (no check against existing keys is
performed). -/
theorem C5_issue_overwrites (st : ManagerState) (keyId : String)
    (ui : UserInfo) (tk : Tokens) (now : Int) (d : Bool) :
    (createApiKey st keyId ui tk now d).2 = Outcome.ok ("md2doc_" ++ keyId) ∧
    mapGet (createApiKey st keyId ui tk now d).1.apiKeys ("md2doc_" ++ keyId) =
      some ({ userId := ui.id, email := ui.email, name := ui.name, picture := ui.picture, accessToken := tk.access_token, refreshToken := tk.refresh_token, tokenExpiry := tk.expiry_date, scope := tk.scope, createdAt := now, lastUsed := now, active := true }) := by
  unfold createApiKey
  dsimp only
  refine ⟨rfl, ?_⟩
  rw [scheduleTokenRefresh_apiKeys, saveApiKeys_apiKeys]
  dsimp only
  exact mapGet_mapSet_self _ _ _

theorem filter_not_then_filter_self {α : Type} (l : List α) (r : α → Bool) :
    (l.filter (fun a => !(r a))).filter r = [] := by
  induction l with
  | nil => rfl
  | cons a rest ih =>
    cases h : r a <;> simp [List.filter_cons, h, ih]

theorem filter_not_idem {α : Type} (l : List α) (r : α → Bool) :
    (l.filter (fun a => !(r a))).filter (fun a => !(r a)) =
      l.filter (fun a => !(r a)) := by
  induction l with
  | nil => rfl
  | cons a rest ih =>
    cases h : r a <;> simp [List.filter_cons, h, ih]

theorem filter_keep_then_removable (l : List (String × KeyData)) (T : Int) :
    (l.filter (fun p => !(!p.2.active && decide (p.2.lastUsed < T)))).filter
      (fun p => (!p.2.active && decide (p.2.lastUsed < T))) = [] :=
  filter_not_then_filter_self l (fun p => (!p.2.active && decide (p.2.lastUsed < T)))

theorem filter_keep_idem (l : List (String × KeyData)) (T : Int) :
    (l.filter (fun p => !(!p.2.active && decide (p.2.lastUsed < T)))).filter
      (fun p => !(!p.2.active && decide (p.2.lastUsed < T))) =
    l.filter (fun p => !(!p.2.active && decide (p.2.lastUsed < T))) :=
  filter_not_idem l (fun p => (!p.2.active && decide (p.2.lastUsed < T)))

theorem cleanup_fst_apiKeys (st : ManagerState) (now : Int) (d : Bool) :
    (cleanup st now d).1.apiKeys =
      st.apiKeys.filter
        (fun p => !(!p.2.active && decide (p.2.lastUsed < now - 30 * 24 * 60 * 60 * 1000))) := by
  unfold cleanup
  dsimp only
  split
  · rw [saveApiKeys_apiKeys]
  · rfl

/-- Dead record: revoked and last used well past the retention window. -/
def kdDeadC6 : KeyData := mkKD "u6" none none 0 false

/-- Alive record kept by cleanup. -/
def kdAliveC6 : KeyData := mkKD "u6b" none none 0 true

/-- State holding one removable and one non-removable record. -/
def stC6 : ManagerState :=
  { apiKeys := [("md2doc_dead6", kdDeadC6), ("md2doc_alive6", kdAliveC6)],
    refreshTimers := [], disk := [] }

/-- Claim C6, counterexample: `cleanup` removes exactly the one inactive
record older than 30 days, but its promise resolves to `undefined`
(modelled `none`), not to the number removed (`some 1`), and the second call
resolves to `undefined` as well, not `some 0`. -/
theorem C6_counterexample :
    (cleanup stC6 2592000001 true).1.apiKeys = [("md2doc_alive6", kdAliveC6)] ∧
    (cleanup stC6 2592000001 true).2 = none ∧
    (cleanup stC6 2592000001 true).2 ≠ some 1 ∧
    (cleanup (cleanup stC6 2592000001 true).1 2592000001 true).2 ≠ some 0 := by
  decide

/-- Claim C6, amended: `cleanup` deletes exactly the records with
`active = false` whose `lastUsed` is older than the 30-day retention window,
and it is idempotent — an immediately repeated call removes nothing and
leaves the state unchanged — but it returns no value (`undefined`, modelled
`none`), not the number removed. -/
theorem C6_cleanup_deletes_and_idempotent (st : ManagerState) (now : Int)
    (d : Bool) :
    (cleanup st now d).1.apiKeys =
      st.apiKeys.filter
        (fun p => !(!p.2.active && decide (p.2.lastUsed < now - 30 * 24 * 60 * 60 * 1000))) ∧
    (cleanup st now d).2 = none ∧
    cleanup (cleanup st now d).1 now d = ((cleanup st now d).1, none) := by
  refine ⟨cleanup_fst_apiKeys st now d, rfl, ?_⟩
  have hX := cleanup_fst_apiKeys st now d
  generalize hG : (cleanup st now d).1 = X at hX ⊢
  unfold cleanup
  dsimp only
  rw [hX, filter_keep_then_removable, filter_keep_idem, ← hX]
  simp [List.contains]

/-- Record whose expiry is already inside the 5-minute window. -/
def kdC7 : KeyData := mkKD "u7" (some "r7") (some 200000) 0 true

/-- State for the scheduler counterexample. -/
def stC7 : ManagerState :=
  { apiKeys := [("md2doc_c7", kdC7)], refreshTimers := [], disk := [] }

/-- Claim C7, counterexample: for a record whose `expiry - 5min` is already
in the past, `scheduleTokenRefresh` does not arm a timer clamped to "now" —
it arms no timer at all. -/
theorem C7_counterexample :
    mapGet stC7.apiKeys "md2doc_c7" = some kdC7 ∧
    kdC7.tokenExpiry = some 200000 ∧
    (200000 : Int) - 0 - 5 * 60 * 1000 ≤ 0 ∧
    mapGet (scheduleTokenRefresh stC7 "md2doc_c7" 0).refreshTimers "md2doc_c7" =
      none := by
  decide

/-- Claim C7, amended: for a stored record with a known expiry,
`scheduleTokenRefresh` first disarms any existing timer for the key and then
arms a one-shot timer firing at `expiry - 5min` only when that instant is
strictly in the future; when it is already past, no timer is armed (any
timer entry left for the key is disarmed).  The timer map holds at most one
entry per key, so at most one timer is outstanding per key. -/
theorem C7_schedule_future_only (st : ManagerState) (k : String)
    (kd : KeyData) (expiry now : Int)
    (h1 : mapGet st.apiKeys k = some kd) (h2 : kd.tokenExpiry = some expiry) :
    (expiry - now - 5 * 60 * 1000 > 0 →
      mapGet (scheduleTokenRefresh st k now).refreshTimers k =
        some { fireTime := expiry - 5 * 60 * 1000, armed := true }) ∧
    (expiry - now - 5 * 60 * 1000 ≤ 0 →
      ∀ t, mapGet (scheduleTokenRefresh st k now).refreshTimers k = some t →
        t.armed = false) := by
  unfold scheduleTokenRefresh
  rw [h1]
  simp only [h2]
  constructor
  · intro hpos
    rw [if_pos hpos]
    dsimp only
    have harith : now + (expiry - now - 5 * 60 * 1000) = expiry - 5 * 60 * 1000 := by
      omega
    rw [mapGet_mapSet_self, harith]
  · intro hnonpos t ht
    rw [if_neg (by omega)] at ht
    dsimp only at ht
    cases hT : mapGet st.refreshTimers k with
    | some t0 =>
      rw [hT] at ht
      dsimp only at ht
      rw [mapGet_mapSet_self] at ht
      cases ht
      rfl
    | none =>
      rw [hT] at ht
      dsimp only at ht
      rw [hT] at ht
      cases ht

/-- Claim C7, witness: the amended theorem applied to a record whose expiry
lies beyond the window (timer armed at `expiry - 5min`). -/
theorem C7_witness :
    mapGet stC1.apiKeys "md2doc_k1" = some (mkKD "u1" (some "r1") (some 100000) 0 true) ∧
    (mkKD "u1" (some "r1") (some 100000) 0 true).tokenExpiry = some 100000 ∧
    ((100000 : Int) - (-300000) - 5 * 60 * 1000 > 0) ∧
    mapGet (scheduleTokenRefresh stC1 "md2doc_k1" (-300000)).refreshTimers "md2doc_k1" =
      some { fireTime := 100000 - 5 * 60 * 1000, armed := true } :=
  ⟨by decide, by decide, by decide,
    (C7_schedule_future_only stC1 "md2doc_k1"
      (mkKD "u1" (some "r1") (some 100000) 0 true) 100000 (-300000)
      (by decide) (by decide)).1 (by decide)⟩

/-- Requester's record, owner `userA`. -/
def kdA4 : KeyData := mkKD "userA" none none 0 true

/-- Target record, owner `userB`, inside the refresh window. -/
def kdB4 : KeyData := mkKD "userB" (some "rtB") (some 100000) 0 true

/-- State for the revoke-ownership counterexample. -/
def stC4 : ManagerState :=
  { apiKeys := [("md2doc_a4", kdA4), ("md2doc_b4", kdB4)],
    refreshTimers := [], disk := [] }

/-- Claim C4, counterexample: `userA` asks the revoke route to revoke
`userB`'s key while that key is inside the refresh window and the provider
rejects the reactive refresh performed by the ownership lookup; afterwards
the target record's `active` is `false` even though its owner differs from
the requesting subject — so the route can set `active = false` for a record
the requester does not own, contradicting the claim. -/
theorem C4_counterexample :
    mapGet stC4.apiKeys "md2doc_a4" = some kdA4 ∧ kdA4.userId = "userA" ∧
    mapGet stC4.apiKeys "md2doc_b4" = some kdB4 ∧ kdB4.userId = "userB" ∧
    kdB4.active = true ∧ ("userB" : String) ≠ "userA" ∧
    (mapGet (revokeRoute stC4 (some "md2doc_a4") "md2doc_b4" 0 true none none).1.apiKeys
      "md2doc_b4").map KeyData.active = some false := by
  decide

/-- Claim C4, amended: the revoke route invokes the revocation only when the
target record resolves and its owner equals the requesting subject's id.
When the target record exists, is active and is owned by a different
subject, and its resolution completes (the requester's record is fresh, and
the target either needs no reactive refresh or its refresh has a refresh
token and a provider that fulfils), the route answers forbidden without
revoking: the target record stays `active = true` with its owner unchanged.
(The counterexample shows the remaining case — a failing reactive refresh
during the ownership lookup — deactivates the target regardless of
ownership, as fail-closed refresh handling.) -/
theorem C4_revoke_requires_ownership (st : ManagerState) (rk tk : String)
    (ud kd : KeyData) (now : Int) (d : Bool) (p1 p2 : Option ProviderCreds)
    (hne : rk ≠ tk)
    (hu : mapGet st.apiKeys rk = some ud) (hua : ud.active = true)
    (hur : needsTokenRefresh ud now = false)
    (ht : mapGet st.apiKeys tk = some kd) (hta : kd.active = true)
    (hdiff : kd.userId ≠ ud.userId)
    (hsafe : needsTokenRefresh kd now = true →
      ∃ rt c, kd.refreshToken = some rt ∧ p2 = some c) :
    (revokeRoute st (some rk) tk now d p1 p2).2 = RevokeRouteResult.forbidden ∧
    ∃ kd2, mapGet (revokeRoute st (some rk) tk now d p1 p2).1.apiKeys tk = some kd2 ∧
      kd2.active = true ∧ kd2.userId = kd.userId := by
  have hT2 : mapGet
      (saveApiKeys { st with apiKeys := mapSet st.apiKeys rk ({ ud with lastUsed := now }) } d).apiKeys tk =
      some kd := by
    rw [saveApiKeys_apiKeys]
    dsimp only
    rw [mapGet_mapSet_ne _ _ _ _ hne]
    exact ht
  unfold revokeRoute
  dsimp only
  rw [getUserByApiKey_fresh st rk now d p1 ud hu hua hur]
  dsimp only
  cases hR : needsTokenRefresh kd now with
  | false =>
    rw [getUserByApiKey_fresh _ tk now d p2 kd hT2 hta hR]
    dsimp only
    split
    · refine ⟨rfl, ({ kd with lastUsed := now }), ?_, hta, rfl⟩
      rw [saveApiKeys_apiKeys]
      dsimp only
      exact mapGet_mapSet_self _ _ _
    · next hcond => exact absurd hdiff hcond
  | true =>
    obtain ⟨rt, c, hrt, hp2⟩ := hsafe hR
    subst hp2
    rcases hE : getUserByApiKey
        (saveApiKeys { st with apiKeys := mapSet st.apiKeys rk ({ ud with lastUsed := now }) } d)
        tk now d (some c) with ⟨stx, outx⟩
    have hsnd := getUserByApiKey_stale_ok_snd _ tk now d kd rt c hT2 hta hR hrt
    have hfst := getUserByApiKey_stale_ok_fst _ tk now d kd rt c hT2 hta hR hrt
    rw [hE] at hsnd hfst
    dsimp only at hsnd hfst
    subst hsnd
    dsimp only
    split
    · exact ⟨rfl, ({ kd with lastUsed := now, accessToken := c.access_token, tokenExpiry := c.expiry_date }), hfst, hta, rfl⟩
    · next hcond => exact absurd hdiff hcond

/-- Requester and target both fresh, used for the C4 witness. -/
def stC4w : ManagerState :=
  { apiKeys := [("md2doc_aw", mkKD "userA" none none 0 true),
                ("md2doc_bw", mkKD "userB" none none 0 true)],
    refreshTimers := [], disk := [] }

/-- Claim C4, witness: the amended theorem applied to a concrete state —
the route answers forbidden and `userB`'s record stays active. -/
theorem C4_witness :
    (revokeRoute stC4w (some "md2doc_aw") "md2doc_bw" 3 true none none).2 =
      RevokeRouteResult.forbidden ∧
    ∃ kd2, mapGet (revokeRoute stC4w (some "md2doc_aw") "md2doc_bw" 3 true none none).1.apiKeys
        "md2doc_bw" = some kd2 ∧ kd2.active = true ∧
      kd2.userId = (mkKD "userB" none none 0 true).userId :=
  C4_revoke_requires_ownership stC4w "md2doc_aw" "md2doc_bw"
    (mkKD "userA" none none 0 true) (mkKD "userB" none none 0 true) 3 true none none
    (by decide) (by decide) (by decide) (by decide) (by decide) (by decide)
    (by decide) (fun h => absurd h (by decide))
